import Mathlib

/-!
Verification of the `shop_stripe.offsite_stripe` payment backend
(`src/shop_stripe/offsite_stripe.py`).

Shallow embedding: the Django settings object becomes an explicit
`StripeSettings` record of optional values; the host-shop collaborator
(`self.shop`) becomes a record of functions; the Stripe SDK call
(`stripe.Charge.create`, observed through `stripe.api_key`) becomes a
`Provider` behaviour function returning either a transaction id or a card
error; the side effects of the view (the outbound charge call and the
`shop.confirm_payment` call) are recorded as an explicit event trace.
HTTP responses are a small inductive (`HttpResponseBadRequest`, `redirect`,
`render`).  Python `int(x)` on a decimal amount truncates toward zero, which
`pyInt` mirrors on `ℚ`; `str(...)` becomes `toString` on `ℤ`.
-/

namespace ShopStripe

/-- Python `int(q)` for a (decimal / rational) quantity: truncation toward
zero.  `Int.tdiv` is Lean's truncating division, and `q.den > 0`. -/
def pyInt (q : ℚ) : ℤ := Int.tdiv q.num (q.den : ℤ)

/-- The Django settings values the module reads (`settings.SHOP_STRIPE_*`);
`none` models an absent attribute. -/
structure StripeSettings where
  SHOP_STRIPE_PRIVATE_KEY : Option String
  SHOP_STRIPE_PUBLISHABLE_KEY : Option String
  SHOP_STRIPE_CURRENCY : Option String
  deriving DecidableEq

/-- Result of a settings-key getter: the value, or the raised
`ImproperlyConfigured` exception with its message. -/
inductive KeyResult where
  | ok (key : String)
  | improperlyConfigured (msg : String)
  deriving DecidableEq

/-- `get_stripe_private_key`: return `settings.SHOP_STRIPE_PRIVATE_KEY`, or
raise `ImproperlyConfigured` when the attribute is absent. -/
def get_stripe_private_key (s : StripeSettings) : KeyResult :=
  match s.SHOP_STRIPE_PRIVATE_KEY with
  | some k => .ok k
  | none => .improperlyConfigured "You must define the SHOP_STRIPE_PRIVATE_KEY setting"

/-- `get_stripe_public_key`: return `settings.SHOP_STRIPE_PUBLISHABLE_KEY`, or
raise `ImproperlyConfigured` when the attribute is absent. -/
def get_stripe_public_key (s : StripeSettings) : KeyResult :=
  match s.SHOP_STRIPE_PUBLISHABLE_KEY with
  | some k => .ok k
  | none => .improperlyConfigured "You must define the SHOP_STRIPE_PUBLISHABLE_KEY setting"

/-- `get_currency`: `getattr(settings, 'SHOP_STRIPE_CURRENCY', 'usd')`. -/
def get_currency (s : StripeSettings) : String :=
  s.SHOP_STRIPE_CURRENCY.getD "usd"

/-- An incoming Django request: method, POST data (key/value pairs), and the
user fields `get_description` reads. -/
structure Request where
  method : String
  POST : List (String × String)
  user_is_authenticated : Bool
  user_email : String
  deriving DecidableEq

/-- The host-shop collaborator (`self.shop`): the methods the module calls,
as pure functions.  `confirm_payment` is a side effect and is modelled as a
trace event instead. -/
structure Shop (Order OrderId : Type) where
  get_order : Request → Order
  get_order_unique_id : Order → OrderId
  get_order_total : Order → ℚ
  get_order_for_id : OrderId → Order
  get_finished_url : String

/-- `request.POST.get(key)`: Django's `QueryDict.get` returns the last value
listed for the key, or `None` when the key is absent. -/
def postGet (post : List (String × String)) (key : String) : Option String :=
  ((post.filter (fun p => p.1 == key)).getLast?).map (fun p => p.2)

/-- The backend object after `__init__` has run: the shop reference and the
three configuration values snapshotted at construction, plus the class
attributes (`backend_name`, `template`, `success_url`). -/
structure StripeBackend (Order OrderId : Type) where
  shop : Shop Order OrderId
  private_key : String
  public_key : String
  currency : String
  backend_name : String := "Stripe"
  template : String := "shop_stripe/payment.html"
  success_url : Option String := none

/-- Result of running `StripeBackend.__init__(shop)`: the constructed backend,
or the propagated `ImproperlyConfigured` error. -/
inductive InitResult (Order OrderId : Type) where
  | ok (backend : StripeBackend Order OrderId)
  | configError (msg : String)

/-- `StripeBackend.__init__`: store the shop reference and read the three
configuration values from the settings; a missing key raises
(`get_stripe_private_key` is evaluated first). -/
def StripeBackend.init {Order OrderId : Type} (shop : Shop Order OrderId)
    (s : StripeSettings) : InitResult Order OrderId :=
  match get_stripe_private_key s with
  | .improperlyConfigured msg => .configError msg
  | .ok pk =>
    match get_stripe_public_key s with
    | .improperlyConfigured msg => .configError msg
    | .ok pub =>
      .ok { shop := shop, private_key := pk, public_key := pub, currency := get_currency s }

/-- `get_success_url`: `if self.success_url:` (Python truthiness — `None` and
`""` are falsy) return it, else `self.shop.get_finished_url()`. -/
def get_success_url {Order OrderId : Type} (b : StripeBackend Order OrderId) : String :=
  match b.success_url with
  | some u => if u = "" then b.shop.get_finished_url else u
  | none => b.shop.get_finished_url

/-- `get_description`: the authenticated user's email, else the translated
`'guest customer'` label. -/
def get_description (r : Request) : String :=
  if r.user_is_authenticated then r.user_email else "guest customer"

/-- Outcome of the Stripe SDK's `Charge.create`: a result dict whose `id` is
the transaction id, or a raised `stripe.CardError` with a message. -/
inductive ChargeOutcome where
  | success (tx_id : String)
  | cardError (msg : String)
  deriving DecidableEq

/-- The provider's behaviour: what `stripe.Charge.create` does as a function
of the api key in effect (`stripe.api_key`), the card token, the currency,
the amount (a decimal string, as the code passes `str(int(...))`), and the
description. -/
def Provider : Type := String → String → String → String → String → ChargeOutcome

/-- Observable side effects of a request: the outbound charge call (with the
credential in effect) and the `shop.confirm_payment` call. -/
inductive Event (Order : Type) where
  | chargeCreate (api_key card currency amount description : String)
  | confirmPayment (order : Order) (amount tx_id backend_name : String)
  deriving DecidableEq

/-- Result of `charge_card`: the transaction id, the raised `StripeException`
(wrapping the card error's message), or a propagated `ImproperlyConfigured`
from re-reading the private key. -/
inductive ChargeCardResult where
  | ok (tx_id : String)
  | stripeExc (msg : String)
  | configError (msg : String)
  deriving DecidableEq

/-- `charge_card(token, amount, description)`: set `stripe.api_key` by
RE-READING the private key from the current settings (line 109 calls
`self.get_stripe_private_key()`, not the `self.private_key` snapshot), then
call `Charge.create(card=token, currency=self.currency, amount, description)`;
a `CardError` is re-raised as `StripeException(e.message)`, otherwise the
result's `id` is returned.  Emits a charge event when the call is made. -/
def charge_card {Order OrderId : Type} (provider : Provider)
    (settingsNow : StripeSettings) (b : StripeBackend Order OrderId)
    (token amount description : String) : ChargeCardResult × List (Event Order) :=
  match get_stripe_private_key settingsNow with
  | .improperlyConfigured msg => (.configError msg, [])
  | .ok key =>
    match provider key token b.currency amount description with
    | .cardError msg => (.stripeExc msg, [Event.chargeCreate key token b.currency amount description])
    | .success tx_id => (.ok tx_id, [Event.chargeCreate key token b.currency amount description])

/-- The bound or unbound card form (`form_class(request.POST)` vs
`form_class()`). -/
inductive Form where
  | unbound
  | bound (data : List (String × String))
  deriving DecidableEq

/-- The template context the view renders with. -/
structure Context where
  error : Option String
  STRIPE_PUBLISHABLE_KEY : String
  amount : ℚ
  currency : String
  form : Form
  deriving DecidableEq

/-- An HTTP response produced by the view. -/
inductive Response where
  | badRequest (body : String)
  | redirectTo (url : String)
  | rendered (template : String) (ctx : Context)
  deriving DecidableEq

/-- HTTP status code of each response kind (`HttpResponseBadRequest` = 400,
`redirect` = 302, `render` = 200). -/
def Response.status : Response → Nat
  | .badRequest _ => 400
  | .redirectTo _ => 302
  | .rendered _ _ => 200

/-- Outcome of a view invocation: a response, or an unhandled exception
(`ImproperlyConfigured` propagating out of `charge_card`). -/
inductive ViewOutcome where
  | response (resp : Response)
  | fault (msg : String)
  deriving DecidableEq

/-- A view invocation's outcome together with its trace of side effects. -/
structure ViewResult (Order : Type) where
  outcome : ViewOutcome
  events : List (Event Order)
  deriving DecidableEq

/-- `stripe_payment_view(request)` — the body of the decorated view
(`order_required`, host-framework code outside this module, guarantees the
order resolves, so `shop.get_order` is total here).  GET renders the empty
form; POST binds the form, checks the token (`if not token` — absent or
empty), charges the card, and on success re-fetches the order by the captured
id, confirms payment, and redirects. -/
def stripe_payment_view {Order OrderId : Type} (provider : Provider)
    (settingsNow : StripeSettings) (b : StripeBackend Order OrderId)
    (request : Request) : ViewResult Order :=
  let order := b.shop.get_order request
  let order_id := b.shop.get_order_unique_id order
  let amount := b.shop.get_order_total order
  let baseCtx : Context :=
    { error := none
      STRIPE_PUBLISHABLE_KEY := b.public_key
      amount := amount
      currency := b.currency
      form := Form.unbound }
  if request.method = "POST" then
    let form := Form.bound request.POST
    let description := get_description request
    let stripe_amount := toString (pyInt (amount * 100))
    match postGet request.POST "stripeToken" with
    | none => { outcome := .response (.badRequest "stripeToken not set"), events := [] }
    | some token =>
      if token = "" then
        { outcome := .response (.badRequest "stripeToken not set"), events := [] }
      else
        match charge_card provider settingsNow b token stripe_amount description with
        | (.configError msg, evs) => { outcome := .fault msg, events := evs }
        | (.stripeExc msg, evs) =>
          { outcome := .response (.rendered b.template { baseCtx with error := some msg, form := form })
            events := evs }
        | (.ok tx_id, evs) =>
          { outcome := .response (.redirectTo (get_success_url b))
            events := evs ++
              [Event.confirmPayment (b.shop.get_order_for_id order_id) stripe_amount tx_id b.backend_name] }
  else
    { outcome := .response (.rendered b.template baseCtx), events := [] }

/-! ### Concrete fixtures used by witnesses and counterexamples -/

/-- A concrete shop over `Nat` orders and `Nat` ids; `get_order_for_id` is
deliberately not the identity on the in-memory order, so a confirmed order
being the re-fetched one is observable. -/
def shopW : Shop Nat Nat :=
  { get_order := fun _ => 7
    get_order_unique_id := fun o => o + 1
    get_order_total := fun _ => (1999 : ℚ) / 100
    get_order_for_id := fun i => i + 100
    get_finished_url := "/shop/finished" }

/-- Complete settings (both keys present, currency unset). -/
def settingsW : StripeSettings :=
  { SHOP_STRIPE_PRIVATE_KEY := some "sk_test"
    SHOP_STRIPE_PUBLISHABLE_KEY := some "pk_test"
    SHOP_STRIPE_CURRENCY := none }

/-- The backend constructed from `settingsW` (currency defaulted). -/
def backendW : StripeBackend Nat Nat :=
  { shop := shopW, private_key := "sk_test", public_key := "pk_test", currency := "usd" }

/-- A provider that accepts every charge with transaction id `ch_123`. -/
def providerAccept : Provider := fun _ _ _ _ _ => ChargeOutcome.success "ch_123"

/-- A provider that declines every charge. -/
def providerDecline : Provider := fun _ _ _ _ _ => ChargeOutcome.cardError "Your card was declined."

/-- A POST request carrying the token `tok_valid`, unauthenticated user. -/
def requestPostW : Request :=
  { method := "POST", POST := [("stripeToken", "tok_valid")]
    user_is_authenticated := false, user_email := "" }

/-- A GET request. -/
def requestGetW : Request :=
  { method := "GET", POST := [], user_is_authenticated := false, user_email := "" }

/-- A POST request with no `stripeToken` field at all. -/
def requestNoTokenW : Request :=
  { method := "POST", POST := [("other", "x")]
    user_is_authenticated := false, user_email := "" }

/-- A POST request whose `stripeToken` field is present but empty. -/
def requestEmptyTokenW : Request :=
  { method := "POST", POST := [("stripeToken", "")]
    user_is_authenticated := false, user_email := "" }

/-- Evaluation helper: the minor-unit amount for the fixture total `19.99`. -/
lemma pyInt_total_1999 : pyInt ((1999 : ℚ) / 100 * 100) = 1999 := by
  unfold pyInt
  norm_num

/-- Evaluation helper: the amount string the view passes for total `19.99`. -/
lemma stripe_amount_1999 : toString (pyInt ((1999 : ℚ) / 100 * 100)) = "1999" := by
  rw [pyInt_total_1999]
  rfl

/-- Claim C1: for every POST request carrying a `stripeToken` the provider
accepts, the handler makes exactly one charge call, then exactly one
`confirm_payment` call — with the same amount string that was passed to the
charge call, the provider-returned transaction id, the backend name, and the
order re-fetched via `get_order_for_id` from the id captured before the
charge — and responds with a redirect to `get_success_url()`; the whole event
trace is exactly those two calls, so nothing happens more than once. -/
theorem post_accepted_token_charges_confirms_redirects_once
    {Order OrderId : Type} (provider : Provider) (s : StripeSettings)
    (b : StripeBackend Order OrderId) (r : Request) (key token tx_id : String)
    (hkey : s.SHOP_STRIPE_PRIVATE_KEY = some key)
    (hm : r.method = "POST")
    (ht : postGet r.POST "stripeToken" = some token)
    (hne : token ≠ "")
    (hp : provider key token b.currency
        (toString (pyInt (b.shop.get_order_total (b.shop.get_order r) * 100)))
        (get_description r) = .success tx_id) :
    stripe_payment_view provider s b r =
      { outcome := .response (.redirectTo (get_success_url b))
        events := [Event.chargeCreate key token b.currency
            (toString (pyInt (b.shop.get_order_total (b.shop.get_order r) * 100)))
            (get_description r),
          Event.confirmPayment
            (b.shop.get_order_for_id (b.shop.get_order_unique_id (b.shop.get_order r)))
            (toString (pyInt (b.shop.get_order_total (b.shop.get_order r) * 100)))
            tx_id b.backend_name] } := by
  unfold stripe_payment_view charge_card get_stripe_private_key
  rw [hm, ht, hkey]
  simp only [reduceIte]
  rw [if_neg hne, hp]
  rfl

/-- Witness for C1 at the spec's concrete scenario: total 19.99, currency
defaulted to usd, token `tok_valid` accepted as `ch_123`; the trace is one
charge of "1999" then one confirmation of the re-fetched order, and the
response redirects to the finished URL. -/
theorem post_accepted_token_charges_confirms_redirects_once_witness :
    stripe_payment_view providerAccept settingsW backendW requestPostW =
      { outcome := .response (.redirectTo "/shop/finished")
        events := [Event.chargeCreate "sk_test" "tok_valid" "usd" "1999" "guest customer",
          Event.confirmPayment 108 "1999" "ch_123" "Stripe"] } := by
  have h := post_accepted_token_charges_confirms_redirects_once providerAccept settingsW
    backendW requestPostW "sk_test" "tok_valid" "ch_123" rfl rfl rfl (by decide) rfl
  simpa [backendW, shopW, requestPostW, get_success_url, get_description,
    stripe_amount_1999] using h

/-- Claim C3: for every POST request without a `stripeToken` field, the
handler returns HTTP 400 with body exactly `stripeToken not set`, and the
event trace is empty — the provider's charge operation is never invoked. -/
theorem post_missing_token_is_400_no_charge
    {Order OrderId : Type} (provider : Provider) (s : StripeSettings)
    (b : StripeBackend Order OrderId) (r : Request)
    (hm : r.method = "POST")
    (ht : postGet r.POST "stripeToken" = none) :
    stripe_payment_view provider s b r =
      { outcome := .response (.badRequest "stripeToken not set"), events := [] } ∧
    (Response.badRequest "stripeToken not set").status = 400 := by
  constructor
  · unfold stripe_payment_view
    rw [hm, ht]
    simp only [reduceIte]
  · rfl

/-- Witness for C3: a POST whose data has no `stripeToken` key. -/
theorem post_missing_token_is_400_no_charge_witness :
    stripe_payment_view providerAccept settingsW backendW requestNoTokenW =
      { outcome := .response (.badRequest "stripeToken not set"), events := [] } ∧
    (Response.badRequest "stripeToken not set").status = 400 :=
  post_missing_token_is_400_no_charge providerAccept settingsW backendW requestNoTokenW rfl rfl

/-- Claim C10: a POST whose `stripeToken` field is present but empty behaves
exactly like an absent token — `if not token` is Python falsiness, so the 400
branch triggers and the provider is never invoked. -/
theorem post_empty_token_is_400_no_charge
    {Order OrderId : Type} (provider : Provider) (s : StripeSettings)
    (b : StripeBackend Order OrderId) (r : Request)
    (hm : r.method = "POST")
    (ht : postGet r.POST "stripeToken" = some "") :
    stripe_payment_view provider s b r =
      { outcome := .response (.badRequest "stripeToken not set"), events := [] } ∧
    (Response.badRequest "stripeToken not set").status = 400 := by
  constructor
  · unfold stripe_payment_view
    rw [hm, ht]
    simp only [reduceIte]
  · rfl

/-- Witness for C10: a POST carrying `stripeToken=""`. -/
theorem post_empty_token_is_400_no_charge_witness :
    stripe_payment_view providerAccept settingsW backendW requestEmptyTokenW =
      { outcome := .response (.badRequest "stripeToken not set"), events := [] } ∧
    (Response.badRequest "stripeToken not set").status = 400 :=
  post_empty_token_is_400_no_charge providerAccept settingsW backendW requestEmptyTokenW rfl rfl

/-- Claim C4: for every POST whose token the provider rejects with a card
error, the event trace contains the single charge call and no
`confirm_payment` call, and the response re-renders the template (HTTP 200)
with the provider's error message in the context and the original bound form
built from the submitted POST data. -/
theorem post_rejected_token_renders_error_no_confirm
    {Order OrderId : Type} (provider : Provider) (s : StripeSettings)
    (b : StripeBackend Order OrderId) (r : Request) (key token msg : String)
    (hkey : s.SHOP_STRIPE_PRIVATE_KEY = some key)
    (hm : r.method = "POST")
    (ht : postGet r.POST "stripeToken" = some token)
    (hne : token ≠ "")
    (hp : provider key token b.currency
        (toString (pyInt (b.shop.get_order_total (b.shop.get_order r) * 100)))
        (get_description r) = .cardError msg) :
    stripe_payment_view provider s b r =
      { outcome := .response (.rendered b.template
          { error := some msg
            STRIPE_PUBLISHABLE_KEY := b.public_key
            amount := b.shop.get_order_total (b.shop.get_order r)
            currency := b.currency
            form := Form.bound r.POST })
        events := [Event.chargeCreate key token b.currency
            (toString (pyInt (b.shop.get_order_total (b.shop.get_order r) * 100)))
            (get_description r)] } ∧
    (Response.rendered b.template
      { error := some msg
        STRIPE_PUBLISHABLE_KEY := b.public_key
        amount := b.shop.get_order_total (b.shop.get_order r)
        currency := b.currency
        form := Form.bound r.POST }).status = 200 := by
  constructor
  · unfold stripe_payment_view charge_card get_stripe_private_key
    rw [hm, ht, hkey]
    simp only [reduceIte]
    rw [if_neg hne, hp]
  · rfl

/-- Witness for C4 at the spec's decline scenario: the provider declines the
token, the order is never confirmed, and the card-declined message is
rendered back with the bound form. -/
theorem post_rejected_token_renders_error_no_confirm_witness :
    stripe_payment_view providerDecline settingsW backendW requestPostW =
      { outcome := .response (.rendered "shop_stripe/payment.html"
          { error := some "Your card was declined."
            STRIPE_PUBLISHABLE_KEY := "pk_test"
            amount := (1999 : ℚ) / 100
            currency := "usd"
            form := Form.bound [("stripeToken", "tok_valid")] })
        events := [Event.chargeCreate "sk_test" "tok_valid" "usd" "1999" "guest customer"] } := by
  have h := post_rejected_token_renders_error_no_confirm providerDecline settingsW
    backendW requestPostW "sk_test" "tok_valid" "Your card was declined."
    rfl rfl rfl (by decide) rfl
  simpa [backendW, shopW, requestPostW, get_description, stripe_amount_1999] using h.1

/-- Claim C8: for every GET request the event trace is empty (the provider is
never invoked) and the response renders the template with an unbound form,
`error = none`, the public key, the order total as amount, and the configured
currency. -/
theorem get_renders_empty_form_no_charge
    {Order OrderId : Type} (provider : Provider) (s : StripeSettings)
    (b : StripeBackend Order OrderId) (r : Request)
    (hm : r.method = "GET") :
    stripe_payment_view provider s b r =
      { outcome := .response (.rendered b.template
          { error := none
            STRIPE_PUBLISHABLE_KEY := b.public_key
            amount := b.shop.get_order_total (b.shop.get_order r)
            currency := b.currency
            form := Form.unbound })
        events := [] } := by
  unfold stripe_payment_view
  rw [hm, if_neg (by decide : ¬("GET" : String) = "POST")]

/-- Witness for C8: a concrete GET request renders the empty form with no
events. -/
theorem get_renders_empty_form_no_charge_witness :
    stripe_payment_view providerAccept settingsW backendW requestGetW =
      { outcome := .response (.rendered "shop_stripe/payment.html"
          { error := none
            STRIPE_PUBLISHABLE_KEY := "pk_test"
            amount := (1999 : ℚ) / 100
            currency := "usd"
            form := Form.unbound })
        events := [] } :=
  get_renders_empty_form_no_charge providerAccept settingsW backendW requestGetW rfl

/-- Claim C9: `get_success_url` returns the configured override URL whenever
one is set (`if self.success_url:` — Python truthiness, so a set override is a
non-`None`, non-empty string), and otherwise — override `None`, or the falsy
empty string, which truthiness treats as not set — returns the shop's
finished URL; the three conjuncts cover every backend, and the function is
total, so there is no failure mode. -/
theorem get_success_url_override_else_finished
    {Order OrderId : Type} (b : StripeBackend Order OrderId) :
    (∀ u, b.success_url = some u → u ≠ "" → get_success_url b = u) ∧
    (b.success_url = none → get_success_url b = b.shop.get_finished_url) ∧
    (b.success_url = some "" → get_success_url b = b.shop.get_finished_url) := by
  refine ⟨?_, ?_, ?_⟩
  · intro u hu hne
    unfold get_success_url
    rw [hu]
    simp only [if_neg hne]
  · intro h
    unfold get_success_url
    rw [h]
  · intro h
    unfold get_success_url
    rw [h]
    simp only [reduceIte]

/-- A backend identical to `backendW` but with an override success URL. -/
def backendOverrideW : StripeBackend Nat Nat :=
  { backendW with success_url := some "/thanks" }

/-- A backend whose override success URL is the falsy empty string. -/
def backendEmptyOverrideW : StripeBackend Nat Nat :=
  { backendW with success_url := some "" }

/-- Witness for C9, one conjunct per case: with a truthy override the override
is returned; with no override, and likewise with the falsy empty-string
override, the shop's finished URL is returned. -/
theorem get_success_url_override_else_finished_witness :
    get_success_url backendOverrideW = "/thanks" ∧
    get_success_url backendW = "/shop/finished" ∧
    get_success_url backendEmptyOverrideW = "/shop/finished" :=
  ⟨(get_success_url_override_else_finished backendOverrideW).1 "/thanks" rfl (by decide),
   (get_success_url_override_else_finished backendW).2.1 rfl,
   (get_success_url_override_else_finished backendEmptyOverrideW).2.2 rfl⟩

/-- Every charge event `charge_card` emits carries exactly the amount string
it was given. -/
lemma charge_card_events_amount
    {Order OrderId : Type} (provider : Provider) (sNow : StripeSettings)
    (b : StripeBackend Order OrderId) (token amount description : String)
    (k card cur amt desc : String)
    (h : Event.chargeCreate k card cur amt desc ∈
      (charge_card provider sNow b token amount description).2) :
    amt = amount := by
  unfold charge_card get_stripe_private_key at h
  split at h
  · simp at h
  · split at h <;> simp at h <;> exact h.2.2.2.1

/-- Claim C2 (amended): the amount string passed on every provider charge call
of a request equals `str(int(total * 100))` — the total times 100 truncated
toward zero, not rounded. -/
theorem charge_amount_is_total_times_100_truncated
    {Order OrderId : Type} (provider : Provider) (s : StripeSettings)
    (b : StripeBackend Order OrderId) (r : Request)
    (k card cur amt desc : String)
    (h : Event.chargeCreate k card cur amt desc ∈
      (stripe_payment_view provider s b r).events) :
    amt = toString (pyInt (b.shop.get_order_total (b.shop.get_order r) * 100)) := by
  unfold stripe_payment_view at h
  split at h
  · split at h
    · simp at h
    · split at h
      · simp at h
      · dsimp only [] at h
        split at h <;> rename_i heq
        · exact charge_card_events_amount _ _ _ _ _ _ _ _ _ _ _
            (by rw [heq]; exact h)
        · exact charge_card_events_amount _ _ _ _ _ _ _ _ _ _ _
            (by rw [heq]; exact h)
        · rcases List.mem_append.1 h with h' | h'
          · exact charge_card_events_amount _ _ _ _ _ _ _ _ _ _ _
              (by rw [heq]; exact h')
          · simp at h'
  · simp at h

/-- Witness for the amended C2 at the 19.99 scenario: the charge event that
occurs carries "1999" = str(int(19.99 * 100)). -/
theorem charge_amount_is_total_times_100_truncated_witness :
    ("1999" : String) = toString (pyInt ((1999 : ℚ) / 100 * 100)) := by
  have hv : stripe_payment_view providerAccept settingsW backendW requestPostW =
      { outcome := ViewOutcome.response (Response.redirectTo "/shop/finished")
        events := [Event.chargeCreate "sk_test" "tok_valid" "usd"
            (toString (pyInt ((1999 : ℚ) / 100 * 100))) "guest customer",
          Event.confirmPayment 108 (toString (pyInt ((1999 : ℚ) / 100 * 100)))
            "ch_123" "Stripe"] } := rfl
  exact charge_amount_is_total_times_100_truncated providerAccept settingsW backendW
    requestPostW "sk_test" "tok_valid" "usd" "1999" "guest customer"
    (by rw [hv, ← stripe_amount_1999]; simp)

/-- A shop whose current order total is 0.019 — a total with more than two
decimals, where truncation and rounding of `total * 100` differ. -/
def shopSmallTotalW : Shop Nat Nat :=
  { shopW with get_order_total := fun _ => (19 : ℚ) / 1000 }

/-- The backend over `shopSmallTotalW`. -/
def backendSmallTotalW : StripeBackend Nat Nat :=
  { shop := shopSmallTotalW, private_key := "sk_test", public_key := "pk_test"
    currency := "usd" }

/-- Evaluation helper: `int(0.019 * 100)` truncates to 1. -/
lemma pyInt_total_19_over_1000 : pyInt ((19 : ℚ) / 1000 * 100) = 1 := by
  unfold pyInt
  norm_num
  decide

/-- Evaluation helper: `round(0.019 * 100)` is 2. -/
lemma round_total_19_over_1000 : round ((19 : ℚ) / 1000 * 100) = 2 := by
  have h : ((19 : ℚ) / 1000 * 100) = 19 / 10 := by norm_num
  rw [h, round_eq]
  norm_num

/-- Counterexample to C2 as stated: with order total 0.019, the POST charge
passes amount "1" (truncation), while `round(total * 100)` is 2 — the code
truncates via `int(...)`, it does not round. -/
theorem charge_amount_round_counterexample :
    (stripe_payment_view providerAccept settingsW backendSmallTotalW requestPostW).events =
      [Event.chargeCreate "sk_test" "tok_valid" "usd" "1" "guest customer",
        Event.confirmPayment 108 "1" "ch_123" "Stripe"] ∧
    pyInt ((19 : ℚ) / 1000 * 100) = 1 ∧
    round ((19 : ℚ) / 1000 * 100) = 2 ∧
    (1 : ℤ) ≠ 2 := by
  refine ⟨?_, pyInt_total_19_over_1000, round_total_19_over_1000, by decide⟩
  have hv : (stripe_payment_view providerAccept settingsW backendSmallTotalW
      requestPostW).events =
      [Event.chargeCreate "sk_test" "tok_valid" "usd"
          (toString (pyInt ((19 : ℚ) / 1000 * 100))) "guest customer",
        Event.confirmPayment 108 (toString (pyInt ((19 : ℚ) / 1000 * 100)))
          "ch_123" "Stripe"] := rfl
  rw [hv, pyInt_total_19_over_1000]
  rfl

/-- Claim C5 (amended): the credential supplied to the provider on each charge
is the private-key value read from the settings store AT CHARGE TIME
(`charge_card` calls `get_stripe_private_key()` again instead of using the
`self.private_key` snapshot), so a change to the setting after construction
changes the credential used. -/
theorem charge_card_key_read_at_charge_time
    {Order OrderId : Type} (provider : Provider) (sNow : StripeSettings)
    (b : StripeBackend Order OrderId) (token amount description k : String)
    (hk : sNow.SHOP_STRIPE_PRIVATE_KEY = some k) :
    (charge_card provider sNow b token amount description).2 =
      [Event.chargeCreate k token b.currency amount description] := by
  unfold charge_card get_stripe_private_key
  rw [hk]
  cases h : provider k token b.currency amount description <;> simp [h]

/-- Witness for the amended C5: with current settings carrying `sk_new`, the
charge event records `sk_new` regardless of the backend's snapshot. -/
theorem charge_card_key_read_at_charge_time_witness :
    (charge_card providerAccept
        { SHOP_STRIPE_PRIVATE_KEY := some "sk_new"
          SHOP_STRIPE_PUBLISHABLE_KEY := some "pk_test"
          SHOP_STRIPE_CURRENCY := none }
        backendW "tok_x" "500" "guest customer").2 =
      [Event.chargeCreate "sk_new" "tok_x" "usd" "500" "guest customer"] :=
  charge_card_key_read_at_charge_time providerAccept
    { SHOP_STRIPE_PRIVATE_KEY := some "sk_new"
      SHOP_STRIPE_PUBLISHABLE_KEY := some "pk_test"
      SHOP_STRIPE_CURRENCY := none }
    backendW "tok_x" "500" "guest customer" "sk_new" rfl

/-- Settings at construction time, private key `sk_old`. -/
def settingsOldW : StripeSettings :=
  { SHOP_STRIPE_PRIVATE_KEY := some "sk_old"
    SHOP_STRIPE_PUBLISHABLE_KEY := some "pk_test"
    SHOP_STRIPE_CURRENCY := none }

/-- Settings after a later mutation, private key `sk_new`. -/
def settingsNewW : StripeSettings :=
  { SHOP_STRIPE_PRIVATE_KEY := some "sk_new"
    SHOP_STRIPE_PUBLISHABLE_KEY := some "pk_test"
    SHOP_STRIPE_CURRENCY := none }

/-- The backend as constructed from `settingsOldW`. -/
def backendOldW : StripeBackend Nat Nat :=
  { shop := shopW, private_key := "sk_old", public_key := "pk_test", currency := "usd" }

/-- Counterexample to C5 as stated: a backend constructed when the private key
was `sk_old` (so its snapshot is `sk_old`) charges with credential `sk_new`
once the settings store has changed — the settings mutation does affect the
credential used. -/
theorem config_snapshot_counterexample :
    StripeBackend.init shopW settingsOldW = .ok backendOldW ∧
    backendOldW.private_key = "sk_old" ∧
    (charge_card providerAccept settingsNewW backendOldW "tok_x" "500"
        "guest customer").2 =
      [Event.chargeCreate "sk_new" "tok_x" "usd" "500" "guest customer"] ∧
    ("sk_new" : String) ≠ "sk_old" :=
  ⟨rfl, rfl, rfl, by decide⟩

/-- Claim C6: for every request, on every path, any rendered response's
context carries exactly the PUBLIC key in its key slot; and the view's result
does not depend on the backend's `private_key` field at all (replacing it
changes nothing), so the private credential cannot reach any rendered
context. -/
theorem private_key_never_in_rendered_context
    {Order OrderId : Type} (provider : Provider) (s : StripeSettings)
    (b : StripeBackend Order OrderId) (r : Request) (k' : String) :
    (match (stripe_payment_view provider s b r).outcome with
      | .response (.rendered _ ctx) => ctx.STRIPE_PUBLISHABLE_KEY = b.public_key
      | _ => True) ∧
    stripe_payment_view provider s { b with private_key := k' } r =
      stripe_payment_view provider s b r := by
  constructor
  · have key : ∀ tpl ctx, (stripe_payment_view provider s b r).outcome =
        .response (.rendered tpl ctx) → ctx.STRIPE_PUBLISHABLE_KEY = b.public_key := by
      intro tpl ctx h
      unfold stripe_payment_view charge_card get_stripe_private_key at h
      dsimp only [] at h
      repeat' split at h
      all_goals simp_all
      all_goals rw [← h.2]
    cases hvo : (stripe_payment_view provider s b r).outcome with
    | fault m => trivial
    | response resp =>
      cases resp with
      | badRequest body => trivial
      | redirectTo u => trivial
      | rendered tpl ctx => exact key tpl ctx hvo
  · cases b
    rfl

/-- Claim C7: construction fails with a configuration error whenever the
private-key setting or the public-key setting is absent, succeeds when both
are present, and defaults the currency to "usd" when the currency setting is
unset. -/
theorem init_requires_keys_and_defaults_currency
    {Order OrderId : Type} (shop : Shop Order OrderId) (s : StripeSettings) :
    (s.SHOP_STRIPE_PRIVATE_KEY = none →
      StripeBackend.init shop s =
        .configError "You must define the SHOP_STRIPE_PRIVATE_KEY setting") ∧
    (s.SHOP_STRIPE_PUBLISHABLE_KEY = none →
      ∃ msg, StripeBackend.init shop s = InitResult.configError msg) ∧
    (∀ pk pub, s.SHOP_STRIPE_PRIVATE_KEY = some pk →
      s.SHOP_STRIPE_PUBLISHABLE_KEY = some pub →
      StripeBackend.init shop s =
        .ok { shop := shop, private_key := pk, public_key := pub
              currency := s.SHOP_STRIPE_CURRENCY.getD "usd" }) ∧
    (∀ pk pub, s.SHOP_STRIPE_PRIVATE_KEY = some pk →
      s.SHOP_STRIPE_PUBLISHABLE_KEY = some pub →
      s.SHOP_STRIPE_CURRENCY = none →
      StripeBackend.init shop s =
        .ok { shop := shop, private_key := pk, public_key := pub
              currency := "usd" }) := by
  refine ⟨?_, ?_, ?_, ?_⟩
  · intro h
    unfold StripeBackend.init get_stripe_private_key
    rw [h]
  · intro h
    unfold StripeBackend.init get_stripe_private_key get_stripe_public_key
    rw [h]
    cases hp : s.SHOP_STRIPE_PRIVATE_KEY
    · exact ⟨_, rfl⟩
    · exact ⟨_, rfl⟩
  · intro pk pub hpk hpub
    unfold StripeBackend.init get_stripe_private_key get_stripe_public_key get_currency
    rw [hpk, hpub]
  · intro pk pub hpk hpub hcur
    unfold StripeBackend.init get_stripe_private_key get_stripe_public_key get_currency
    rw [hpk, hpub, hcur]
    rfl

/-- Settings with the private key absent. -/
def settingsNoPrivW : StripeSettings :=
  { SHOP_STRIPE_PRIVATE_KEY := none
    SHOP_STRIPE_PUBLISHABLE_KEY := some "pk_test"
    SHOP_STRIPE_CURRENCY := none }

/-- Settings with the public key absent. -/
def settingsNoPubW : StripeSettings :=
  { SHOP_STRIPE_PRIVATE_KEY := some "sk_test"
    SHOP_STRIPE_PUBLISHABLE_KEY := none
    SHOP_STRIPE_CURRENCY := none }

/-- Settings with both keys and an explicit currency. -/
def settingsEurW : StripeSettings :=
  { SHOP_STRIPE_PRIVATE_KEY := some "sk_test"
    SHOP_STRIPE_PUBLISHABLE_KEY := some "pk_test"
    SHOP_STRIPE_CURRENCY := some "eur" }

/-- Witness for C7: construction fails without either key, succeeds with both
(keeping an explicit currency), and defaults the currency to "usd" when the
setting is unset. -/
theorem init_requires_keys_and_defaults_currency_witness :
    StripeBackend.init shopW settingsNoPrivW =
      .configError "You must define the SHOP_STRIPE_PRIVATE_KEY setting" ∧
    (∃ msg, StripeBackend.init shopW settingsNoPubW = InitResult.configError msg) ∧
    StripeBackend.init shopW settingsEurW =
      .ok { shop := shopW, private_key := "sk_test", public_key := "pk_test"
            currency := "eur" } ∧
    StripeBackend.init shopW settingsW = .ok backendW :=
  ⟨(init_requires_keys_and_defaults_currency shopW settingsNoPrivW).1 rfl,
   (init_requires_keys_and_defaults_currency shopW settingsNoPubW).2.1 rfl,
   (init_requires_keys_and_defaults_currency shopW settingsEurW).2.2.1
     "sk_test" "pk_test" rfl rfl,
   (init_requires_keys_and_defaults_currency shopW settingsW).2.2.2
     "sk_test" "pk_test" rfl rfl rfl⟩

end ShopStripe
